import Mathlib

/-
Verification of the htmx-rust-todo-app server (src/main.rs) against its
natural-language specification.  The Rust program is shallowly embedded:
the mutex-guarded `AppState` becomes an explicit state value threaded
through the handler functions, lock acquisition becomes a `LockResult`
input (a poisoned mutex is the failure case), and the maud `html!`
templates become the exact strings the maud renderer produces (maud
escapes interpolated text and attribute splices with its four-character
HTML escaper, merges class shorthands into a single, statics-first
`class` attribute, and emits toggled empty attributes only when their
condition holds).
-/

namespace TodoApp

set_option maxRecDepth 100000

/-- Maud's character escaper (maud `Escaper`): replaces the four
HTML-significant characters and leaves every other character alone. -/
def escapeChar (c : Char) : String :=
  if c = '&' then "&amp;"
  else if c = '<' then "&lt;"
  else if c = '>' then "&gt;"
  else if c = '"' then "&quot;"
  else String.singleton c

/-- Escape a character list, front to back. -/
def escapeList : List Char → String
  | [] => ""
  | c :: cs => escapeChar c ++ escapeList cs

/-- Maud's `escape_to_string`, applied to every `(...)` text or attribute
splice in an `html!` template. -/
def escape (s : String) : String := escapeList s.data

/-- The underlying character data of an appended string is the appended
character data. -/
theorem data_append (a b : String) : (a ++ b).data = a.data ++ b.data := by
  cases a
  cases b
  rfl

/-- Two strings with the same character data are equal. -/
theorem eq_of_data {a b : String} (h : a.data = b.data) : a = b := by
  cases a
  cases b
  exact congrArg String.mk h

/-- Does the character list start with the pattern? -/
def startsWithL : List Char → List Char → Bool
  | [], _ => true
  | _ :: _, [] => false
  | p :: ps, c :: cs => p = c && startsWithL ps cs

/-- Does the pattern occur contiguously anywhere in the character list? -/
def containsL (pat : List Char) : List Char → Bool
  | [] => startsWithL pat []
  | c :: cs => startsWithL pat (c :: cs) || containsL pat cs

/-- Substring test on strings. -/
def containsStr (s pat : String) : Bool := containsL pat.data s.data

/-- The `Todo` struct of src/main.rs (`id: u128, name: String, done: bool`).
The `u128` id is modelled as `Nat`: ids start at 0 and grow by 1 per
creation, so checked `u128` arithmetic never overflows in any execution
the claims quantify over. -/
structure Todo where
  id : Nat
  name : String
  done : Bool
deriving DecidableEq

/-- The mutex-guarded `AppState` of src/main.rs: the todo sequence and the
`last_index` counter. -/
structure AppState where
  todos : List Todo
  last_index : Nat
deriving DecidableEq

/-- The initial state built in `main`: `todos: vec![], last_index: 0`. -/
def initialState : AppState := { todos := [], last_index := 0 }

/-- An HTTP response as the handlers build it: status code, the headers the
handler appends explicitly (only `HX-Trigger` is ever appended), body. -/
structure Response where
  status : Nat
  headers : List (String × String)
  body : String
deriving DecidableEq

/-- The `ApiError` struct: a static label, displayed as `my error: {name}`. -/
structure ApiError where
  name : String
deriving DecidableEq

/-- actix-web's default `ResponseError` rendering for `ApiError` (no
override in src/main.rs): status 500 with the `Display` text as body. -/
def ApiError.toResponse (e : ApiError) : Response :=
  { status := 500, headers := [], body := "my error: " ++ e.name }

/-- Outcome of `Mutex::lock()`: the guard over the current state, or the
poisoned-lock error (`Err(_)` in the handlers' `match data.lock()`). -/
inductive LockResult (α : Type) where
  | ok (val : α) : LockResult α
  | poisoned : LockResult α
deriving DecidableEq

/-- What a handler invocation produces: a response, an `ApiError` (which
actix renders via `ApiError.toResponse`), or a panic (an `unwrap` failure;
a panic while the `MutexGuard` is live poisons the mutex). -/
inductive HandlerOutcome where
  | ok (resp : Response) : HandlerOutcome
  | err (e : ApiError) : HandlerOutcome
  | panicked : HandlerOutcome
deriving DecidableEq

/-- `Todo::render` (src/main.rs lines 18-30): the exact string maud's
`html!` produces for the `li` fragment.  Maud renders the statically
written attribute text verbatim, escapes the `(…)` splices, merges the
`div`'s class shorthands statics-first (so `.line-through[self.done]
."flex-1"` yields `class="flex-1"` plus `" line-through"` exactly when
`done`), and emits the toggled empty attribute `checked[self.done]` only
when `done`. -/
def Todo.render (t : Todo) : String :=
  "<li id=\"" ++ escape ("todo-" ++ toString t.id) ++ "\" class=\"flex flex-row\">"
    ++ "<div class=\"flex-1" ++ (if t.done then " line-through" else "") ++ "\">"
    ++ escape t.name
    ++ "</div>"
    ++ "<input type=\"checkbox\"" ++ (if t.done then " checked" else "")
    ++ " hx-post=\"" ++ escape ("/" ++ toString t.id ++ "/done")
    ++ "\" hx-trigger=\"click\" hx-target=\"" ++ escape ("#" ++ ("todo-" ++ toString t.id))
    ++ "\" hx-swap=\"outerHTML\">"
    ++ "</li>"

/-- `render_list` (lines 44-50): the concatenation of the item fragments,
in sequence order, with nothing in between (`@for` over `todos.iter()`). -/
def render_list (todos : List Todo) : String := String.join (todos.map Todo.render)

/-- `state.todos.iter().filter(|todo| todo.done).count()`. -/
def countDone (todos : List Todo) : Nat := (todos.filter (fun t => t.done)).length

/-- The full-page body the `index` handler builds (lines 58-89), as maud
emits it: doctype, asset tags, title, page shell, the creation form, the
summary `div` (subscribed to the `changedTodos` signal), and the todo
list.  Elements written with `{}` bodies get explicit closing tags; the
favicon `link` is written with `;` and gets none. -/
def indexBody (st : AppState) : String :=
  "<!DOCTYPE html>"
    ++ "<script src=\"/assets/tailwind.min.js\"></script>"
    ++ "<script src=\"/assets/htmx.min.js\"></script>"
    ++ "<link rel=\"icon\" type=\"image/png\" href=\"/assets/favicon.png\">"
    ++ "<link src=\"/assets/global.css\" rel=\"stylesheet\"></link>"
    ++ "<title>Todo</title>"
    ++ "<body class=\"min-h-sreen text-white bg-black p-4\">"
    ++ "<main class=\"container m-auto flex flex-col gap-4\">"
    ++ "<h1 class=\"text-2xl\">Daily todos</h1>"
    ++ "<form class=\"flex flex-row gap-4\" hx-post=\"/add\" hx-target=\"#todo-list\" hx-swap=\"beforeend\">"
    ++ "<input name=\"prompt\" class=\"flex-1 border rounded border-neutral-400 text-sm px-4 py-2 bg-black\"></input>"
    ++ "<button class=\"rounded bg-blue-500 px-4 py-2\">Add</button>"
    ++ "</form>"
    ++ "<div class=\"text-neutral-400\" hx-get=\"/statistic\" hx-trigger=\"changedTodos from:body\">"
    ++ escape ("Complited " ++ toString (countDone st.todos) ++ " of "
        ++ toString st.todos.length ++ " todos")
    ++ "</div>"
    ++ "<ul id=\"todo-list\">" ++ render_list st.todos ++ "</ul>"
    ++ "</main>"
    ++ "</body>"

/-- The `index` handler (`GET /`, lines 52-91): on a poisoned lock it
returns `Err(ApiError { name: "mutex lock" })`; otherwise it responds 200
with the full page. -/
def index (lock : LockResult AppState) : HandlerOutcome × LockResult AppState :=
  match lock with
  | LockResult.poisoned =>
      (HandlerOutcome.err { name := "mutex lock" }, LockResult.poisoned)
  | LockResult.ok st =>
      (HandlerOutcome.ok { status := 200, headers := [], body := indexBody st },
       LockResult.ok st)

/-- The body of the `add` handler's lock-failure branch (lines 102-107):
an `HttpResponse::Ok()` — status 200 — whose body is this error `div`. -/
def lockErrBody : String :=
  "<div class=\"bg-red-500\">An error occured during accouring the lock of the mutex</div>"

/-- The `add` handler (`POST /add`, lines 98-120).  On a poisoned lock it
responds 200 with `lockErrBody` (it does not build an `ApiError`).
Otherwise it assigns `id = last_index`, appends the new todo with
`done = false`, increments `last_index`, and responds 200 with the
rendered fragment and the `HX-Trigger: changedTodos` header. -/
def add (lock : LockResult AppState) (prompt : String) :
    Response × LockResult AppState :=
  match lock with
  | LockResult.poisoned =>
      ({ status := 200, headers := [], body := lockErrBody }, LockResult.poisoned)
  | LockResult.ok st =>
      let todo : Todo := { id := st.last_index, name := prompt, done := false }
      ({ status := 200, headers := [("HX-Trigger", "changedTodos")], body := todo.render },
       LockResult.ok { todos := st.todos ++ [todo], last_index := st.last_index + 1 })

/-- The numeric value of an ASCII digit, `none` otherwise. -/
def digitVal (c : Char) : Option Nat :=
  if '0' ≤ c ∧ c ≤ '9' then some (c.toNat - '0'.toNat) else none

/-- Accumulate a decimal digit string left to right. -/
def parseDigits : List Char → Nat → Option Nat
  | [], acc => some acc
  | c :: cs, acc =>
      match digitVal c with
      | some d => parseDigits cs (acc * 10 + d)
      | none => none

/-- Rust `u128::from_str`: an optional leading `+`, then at least one
ASCII digit; any other character or a value of `2^128` or more is an
error (`None`). -/
def parseU128 (s : String) : Option Nat :=
  let cs := match s.data with
    | '+' :: rest => rest
    | other => other
  match cs with
  | [] => none
  | _ :: _ =>
      match parseDigits cs 0 with
      | some n => if n < 2 ^ 128 then some n else none
      | none => none

/-- Flip `done` on the first todo whose id matches, leaving everything
else untouched — the effect of collecting `iter_mut().filter(..)` into a
vector and negating `done` through its element 0. -/
def flipFirst : List Todo → Nat → List Todo
  | [], _ => []
  | t :: ts, i =>
      if t.id == i then { t with done := !t.done } :: ts
      else t :: flipFirst ts i

/-- The `toggle_done` handler (`POST {id}/done`, lines 122-151).  The lock
is taken first; a poisoned lock yields `Err(ApiError { name: "mutex lock" })`.
Then the `id` path segment is read (absent segment — impossible under this
route — yields `Err(ApiError { name: "path variable" })`) and parsed with
`.parse().unwrap()`: an unparseable segment panics, and the panic unwinds
past the live `MutexGuard`, poisoning the mutex.  With a parsed id, the
todos are filtered by id: if a first match exists its `done` is flipped in
place and the handler responds 200 with the flipped fragment and the
`HX-Trigger: changedTodos` header, else it responds `NoContent` (204)
with an empty body and no extra header, leaving the state untouched. -/
def toggle_done (lock : LockResult AppState) (idSeg : Option String) :
    HandlerOutcome × LockResult AppState :=
  match lock with
  | LockResult.poisoned =>
      (HandlerOutcome.err { name := "mutex lock" }, LockResult.poisoned)
  | LockResult.ok st =>
      match idSeg with
      | none => (HandlerOutcome.err { name := "path variable" }, LockResult.ok st)
      | some s =>
          match parseU128 s with
          | none => (HandlerOutcome.panicked, LockResult.poisoned)
          | some i =>
              match (st.todos.filter (fun t => t.id == i)).head? with
              | some t0 =>
                  (HandlerOutcome.ok
                    { status := 200, headers := [("HX-Trigger", "changedTodos")],
                      body := Todo.render { t0 with done := !t0.done } },
                   LockResult.ok { st with todos := flipFirst st.todos i })
              | none =>
                  (HandlerOutcome.ok { status := 204, headers := [], body := "" },
                   LockResult.ok st)

/-- The `render_stats` handler (`GET /statistic`, lines 153-165): a
poisoned lock yields `Err(ApiError { name: "mutex lock" })`; otherwise a
200 whose body is the `span`-wrapped summary text. -/
def render_stats (lock : LockResult AppState) : HandlerOutcome × LockResult AppState :=
  match lock with
  | LockResult.poisoned =>
      (HandlerOutcome.err { name := "mutex lock" }, LockResult.poisoned)
  | LockResult.ok st =>
      (HandlerOutcome.ok
        { status := 200, headers := [],
          body := "<span>"
            ++ escape ("Complited " ++ toString (countDone st.todos) ++ " of "
                ++ toString st.todos.length ++ " todos")
            ++ "</span>" },
       LockResult.ok st)

/-- Run a sequence of successful `add` requests (each one acquiring the
lock, as `POST /add` does), threading the store state. -/
def runAdds : AppState → List String → AppState
  | st, [] => st
  | st, p :: ps =>
      match (add (LockResult.ok st) p).2 with
      | LockResult.ok st1 => runAdds st1 ps
      | LockResult.poisoned => st

/-- The todos a run of creations appends when the counter starts at `k`:
ids `k, k+1, …`, the submitted texts, `done = false`. -/
def createdTodos : Nat → List String → List Todo
  | _, [] => []
  | k, p :: ps => { id := k, name := p, done := false } :: createdTodos (k + 1) ps

/-- Store state after `POST /add` with text `Buy milk` on the fresh store. -/
def afterCreate : LockResult AppState := (add (LockResult.ok initialState) "Buy milk").2

/-- Store state after the subsequent `POST /0/done`. -/
def afterToggle : LockResult AppState := (toggle_done afterCreate (some "0")).2

/-- Outcome of `GET /statistic` after the create and the toggle. -/
def statsOutcome : HandlerOutcome := (render_stats afterToggle).1

/-- A two-task store used as a concrete witness state. -/
def demoState : AppState :=
  { todos := [{ id := 0, name := "Buy milk", done := false },
              { id := 1, name := "Walk dog", done := true }],
    last_index := 2 }

/-- An HTML attribute: a name/value pair (value escaped on output), or an
empty attribute emitted only when its flag holds. -/
inductive HAttr where
  | kv (name value : String) : HAttr
  | flag (name : String) (present : Bool) : HAttr

/-- A fragment of HTML: text (escaped on output), adjacency, an element
with a body, or a void element. -/
inductive Node where
  | text (s : String) : Node
  | seq (a b : Node) : Node
  | elem (tag : String) (attrs : List HAttr) (child : Node) : Node
  | void (tag : String) (attrs : List HAttr) : Node

/-- Serialize one attribute the way maud does: a leading space, the name,
and a double-quoted escaped value; an empty attribute is just the
spaced name, present exactly when its flag holds. -/
def renderHAttr : HAttr → String
  | HAttr.kv n v => " " ++ n ++ "=\"" ++ escape v ++ "\""
  | HAttr.flag n b => if b then " " ++ n else ""

/-- Serialize an attribute list in order. -/
def renderHAttrs : List HAttr → String
  | [] => ""
  | a :: as => renderHAttr a ++ renderHAttrs as

/-- Serialize a fragment: text is escaped, elements get explicit closing
tags, void elements none. -/
def Node.render : Node → String
  | Node.text s => escape s
  | Node.seq a b => a.render ++ b.render
  | Node.elem tag attrs child =>
      "<" ++ tag ++ renderHAttrs attrs ++ ">" ++ child.render ++ "</" ++ tag ++ ">"
  | Node.void tag attrs => "<" ++ tag ++ renderHAttrs attrs ++ ">"

/-- Modelled from the spec: the list-item fragment for a task is an `li`
whose element identifier is derived solely from the task's id
(`todo-{id}`), containing a label `div` whose class list carries the
`line-through` strikethrough class exactly when the task is done, with
the task's text as its content, and a checkbox `input` whose `checked`
flag mirrors `done` and whose htmx attributes wire the click to
`POST /{id}/done`, targeting this same fragment. -/
def todoNode (t : Todo) : Node :=
  Node.elem "li"
    [HAttr.kv "id" ("todo-" ++ toString t.id), HAttr.kv "class" "flex flex-row"]
    (Node.seq
      (Node.elem "div"
        [HAttr.kv "class" ("flex-1" ++ (if t.done then " line-through" else ""))]
        (Node.text t.name))
      (Node.void "input"
        [HAttr.kv "type" "checkbox",
         HAttr.flag "checked" t.done,
         HAttr.kv "hx-post" ("/" ++ toString t.id ++ "/done"),
         HAttr.kv "hx-trigger" "click",
         HAttr.kv "hx-target" ("#" ++ ("todo-" ++ toString t.id)),
         HAttr.kv "hx-swap" "outerHTML"]))

/-- The part of the rendered task fragment that precedes the interpolated
task text.  It depends only on the task's id and done flag, never on the
text. -/
def renderPre (i : Nat) (d : Bool) : String :=
  "<li id=\"" ++ escape ("todo-" ++ toString i) ++ "\" class=\"flex flex-row\">"
    ++ "<div class=\"flex-1" ++ (if d then " line-through" else "") ++ "\">"

/-- The part of the rendered task fragment that follows the interpolated
task text.  It depends only on the task's id and done flag, never on the
text. -/
def renderPost (i : Nat) (d : Bool) : String :=
  "</div>"
    ++ "<input type=\"checkbox\"" ++ (if d then " checked" else "")
    ++ " hx-post=\"" ++ escape ("/" ++ toString i ++ "/done")
    ++ "\" hx-trigger=\"click\" hx-target=\"" ++ escape ("#" ++ ("todo-" ++ toString i))
    ++ "\" hx-swap=\"outerHTML\">"
    ++ "</li>"

/-- Observable events of one handler invocation, in program order. -/
inductive Ev where
  | lockAcquire : Ev
  | stateAccess : Ev
  | render : Ev
  | lockRelease : Ev
  | respond : Ev
deriving DecidableEq

/-- The events of `tr` that occur strictly before the first `e`. -/
def before (tr : List Ev) (e : Ev) : List Ev := tr.takeWhile (fun x => x ≠ e)

/-- Event order of the success path of `index` (`GET /`), read off the
source: the guard is taken at line 54, the page markup is built at lines
58-89 while still reading `state.todos` through the guard, the guard is
dropped only when the handler returns (Rust scope-based drop), and the
HTTP layer writes the response after that. -/
def indexTrace : List Ev :=
  [Ev.lockAcquire, Ev.stateAccess, Ev.render, Ev.lockRelease, Ev.respond]

/-- Event order of the success path of `add` (`POST /add`): guard taken at
line 100, push and counter increment at lines 115-116, `todo.render()` at
line 119 while the guard is still live, guard dropped at handler exit,
response written afterwards. -/
def addTrace : List Ev :=
  [Ev.lockAcquire, Ev.stateAccess, Ev.render, Ev.lockRelease, Ev.respond]

/-- Event order of the found path of `toggle_done` (`POST /{id}/done`):
guard taken at line 124, the in-place flip at line 145, `item.render()`
at line 148 through a reference into the guarded state, guard dropped at
handler exit, response written afterwards. -/
def toggleTrace : List Ev :=
  [Ev.lockAcquire, Ev.stateAccess, Ev.render, Ev.lockRelease, Ev.respond]

/-- Event order of the success path of `render_stats` (`GET /statistic`):
guard taken at line 155, the summary read and the `html!` rendering at
lines 160-164 happen together under the guard, guard dropped at handler
exit, response written afterwards. -/
def statsTrace : List Ev :=
  [Ev.lockAcquire, Ev.stateAccess, Ev.render, Ev.lockRelease, Ev.respond]

/-- A handler trace in which the lock is taken before the state is
touched, rendering happens while the lock is still held (no release
before the first render), and the lock is released before the response
is written. -/
def lockHeldThroughRender (tr : List Ev) : Prop :=
  Ev.lockAcquire ∈ before tr Ev.stateAccess ∧
  Ev.render ∈ before tr Ev.lockRelease ∧
  Ev.lockRelease ∉ before tr Ev.render ∧
  Ev.lockRelease ∈ before tr Ev.respond

/-- Is the outcome a 4xx-class client-error response? -/
def is4xx : HandlerOutcome → Bool
  | HandlerOutcome.ok r => 400 ≤ r.status && r.status < 500
  | HandlerOutcome.err e => 400 ≤ e.toResponse.status && e.toResponse.status < 500
  | HandlerOutcome.panicked => false

/-- `Nat.digitChar` only produces digits, lowercase hex letters, or `*` —
never an HTML-significant character. -/
theorem digitChar_plain (m : Nat) : Nat.digitChar m ∉ ['&', '<', '>', '"'] := by
  rcases Nat.lt_or_ge m 16 with h | h
  · interval_cases m <;> decide
  · have e0 : m ≠ 0 := by omega
    have e1 : m ≠ 1 := by omega
    have e2 : m ≠ 2 := by omega
    have e3 : m ≠ 3 := by omega
    have e4 : m ≠ 4 := by omega
    have e5 : m ≠ 5 := by omega
    have e6 : m ≠ 6 := by omega
    have e7 : m ≠ 7 := by omega
    have e8 : m ≠ 8 := by omega
    have e9 : m ≠ 9 := by omega
    have e10 : m ≠ 10 := by omega
    have e11 : m ≠ 11 := by omega
    have e12 : m ≠ 12 := by omega
    have e13 : m ≠ 13 := by omega
    have e14 : m ≠ 14 := by omega
    have e15 : m ≠ 15 := by omega
    have h0 : Nat.digitChar m = '*' := by
      unfold Nat.digitChar
      rw [if_neg e0, if_neg e1, if_neg e2, if_neg e3, if_neg e4, if_neg e5, if_neg e6,
        if_neg e7, if_neg e8, if_neg e9, if_neg e10, if_neg e11, if_neg e12, if_neg e13,
        if_neg e14, if_neg e15]
    rw [h0]
    decide

/-- Every character `Nat.toDigitsCore` pushes is a `digitChar` output. -/
theorem toDigitsCore_plain (b : Nat) : ∀ (fuel n : Nat) (ds : List Char),
    (∀ c ∈ ds, c ∉ ['&', '<', '>', '"']) →
    ∀ c ∈ Nat.toDigitsCore b fuel n ds, c ∉ ['&', '<', '>', '"'] := by
  intro fuel
  induction fuel with
  | zero => intro n ds h c hc; exact h c hc
  | succ f ih =>
      intro n ds h c hc
      simp only [Nat.toDigitsCore] at hc
      split at hc
      · rcases List.mem_cons.mp hc with h1 | h1
        · exact h1 ▸ digitChar_plain _
        · exact h c h1
      · refine ih _ _ ?_ c hc
        intro x hx
        rcases List.mem_cons.mp hx with h1 | h1
        · exact h1 ▸ digitChar_plain _
        · exact h x h1

/-- The decimal rendering of a `Nat` contains no HTML-significant
character. -/
theorem toString_nat_plain (n : Nat) : ∀ c ∈ (toString n).data, c ∉ ['&', '<', '>', '"'] := by
  have h : (toString n).data = Nat.toDigitsCore 10 (n + 1) n [] := rfl
  rw [h]
  exact toDigitsCore_plain 10 (n + 1) n [] (by intro c hc; cases hc)

/-- Every character the escaper emits avoids `<`, `>` and `"` (the `&` of
an entity such as `&amp;` does appear, but none of the characters that
could open a tag or leave an attribute value). -/
theorem escapeChar_noTag (c : Char) : ∀ x ∈ (escapeChar c).data, x ∉ ['<', '>', '"'] := by
  unfold escapeChar
  split_ifs with h1 h2 h3 h4
  · decide
  · decide
  · decide
  · decide
  · intro x hx
    have hx' : x = c := by
      simpa [String.singleton] using hx
    subst hx'
    intro hmem
    simp only [List.mem_cons, List.not_mem_nil, or_false] at hmem
    rcases hmem with h | h | h
    · exact h2 h
    · exact h3 h
    · exact h4 h

/-- `escapeList` never emits `<`, `>` or `"`. -/
theorem escapeList_noTag (cs : List Char) :
    ∀ x ∈ (escapeList cs).data, x ∉ ['<', '>', '"'] := by
  induction cs with
  | nil => intro x hx; cases hx
  | cons c cs ih =>
      intro x hx
      rw [escapeList, data_append] at hx
      rcases List.mem_append.mp hx with h | h
      · exact escapeChar_noTag c x h
      · exact ih x h

/-- Escaping a character that is not HTML-significant is the identity. -/
theorem escapeChar_plain (c : Char) (h : c ∉ ['&', '<', '>', '"']) :
    escapeChar c = String.singleton c := by
  unfold escapeChar
  rw [if_neg, if_neg, if_neg, if_neg]
  · intro he; exact h (by rw [he]; decide)
  · intro he; exact h (by rw [he]; decide)
  · intro he; exact h (by rw [he]; decide)
  · intro he; exact h (by rw [he]; decide)

/-- Escaping a list without HTML-significant characters is the identity. -/
theorem escapeList_plain (cs : List Char) (h : ∀ c ∈ cs, c ∉ ['&', '<', '>', '"']) :
    escapeList cs = String.mk cs := by
  induction cs with
  | nil => rfl
  | cons c cs ih =>
      rw [escapeList, escapeChar_plain c (h c (List.mem_cons_self c cs)),
        ih (fun x hx => h x (List.mem_cons_of_mem c hx))]
      rfl

/-- Escaping a string without HTML-significant characters is the identity. -/
theorem escape_plain (s : String) (h : ∀ c ∈ s.data, c ∉ ['&', '<', '>', '"']) :
    escape s = s := by
  rw [escape, escapeList_plain s.data h]

/-- Escaping the decimal rendering of a `Nat` is the identity. -/
theorem escape_toString_nat (n : Nat) : escape (toString n) = toString n :=
  escape_plain _ (toString_nat_plain n)

/-- The summary text contains no HTML-significant character, so maud's
escaping leaves it unchanged. -/
theorem stats_text_plain (a b : Nat) :
    escape ("Complited " ++ toString a ++ " of " ++ toString b ++ " todos")
      = "Complited " ++ toString a ++ " of " ++ toString b ++ " todos" :=
  escape_plain _ (by
    intro c hc
    simp only [data_append, List.mem_append] at hc
    rcases hc with (((h | h) | h) | h) | h
    · exact (by decide : ∀ x ∈ ("Complited ").data, x ∉ ['&', '<', '>', '"']) c h
    · exact toString_nat_plain a c h
    · exact (by decide : ∀ x ∈ (" of ").data, x ∉ ['&', '<', '>', '"']) c h
    · exact toString_nat_plain b c h
    · exact (by decide : ∀ x ∈ (" todos").data, x ∉ ['&', '<', '>', '"']) c h)

/-- The maud-produced fragment string coincides, for every task, with the
serialization of the structured fragment `todoNode` claims it to be. -/
theorem render_eq_node (t : Todo) : Todo.render t = Node.render (todoNode t) := by
  obtain ⟨i, nm, d⟩ := t
  have h1 : escape ("flex-1" ++ (if d then " line-through" else ""))
      = "flex-1" ++ (if d then " line-through" else "") := by
    cases d <;> decide
  have h2 : (if d then " " ++ "checked" else "") = (if d then " checked" else "") := by
    cases d <;> rfl
  apply eq_of_data
  simp only [Todo.render, todoNode, Node.render, renderHAttrs, renderHAttr, h1, h2,
    data_append, List.append_assoc]
  rfl

/-- The rendered fragment splits into a text-independent part, the escaped
task text, and another text-independent part. -/
theorem render_decomp (t : Todo) :
    Todo.render t = renderPre t.id t.done ++ escape t.name ++ renderPost t.id t.done := by
  obtain ⟨i, nm, d⟩ := t
  apply eq_of_data
  simp only [Todo.render, renderPre, renderPost, data_append, List.append_assoc]

/-- Filtering `pre ++ t0 :: post` for the id held by `t0` but by nothing
in `pre` finds `t0` first, and `flipFirst` flips exactly `t0`. -/
theorem first_match_spec (i : Nat) : ∀ (pre post : List Todo) (t0 : Todo),
    (∀ u ∈ pre, u.id ≠ i) → t0.id = i →
    ((pre ++ t0 :: post).filter (fun t => t.id == i)).head? = some t0 ∧
    flipFirst (pre ++ t0 :: post) i = pre ++ { t0 with done := !t0.done } :: post := by
  intro pre
  induction pre with
  | nil =>
      intro post t0 _ ht
      constructor
      · simp [List.filter_cons, ht]
      · simp [flipFirst, ht]
  | cons u pre ih =>
      intro post t0 hpre ht
      have hu : (u.id == i) = false := by
        simp [hpre u (List.mem_cons_self u pre)]
      obtain ⟨ih1, ih2⟩ := ih post t0 (fun x hx => hpre x (List.mem_cons_of_mem u hx)) ht
      constructor
      · simp only [List.cons_append, List.filter_cons, hu]
        simpa using ih1
      · simp only [List.cons_append, flipFirst, hu]
        simp only [Bool.false_eq_true, if_false, List.append_eq, ih2]

/-- A list containing a todo with the given id splits at its first such
todo. -/
theorem exists_decomp (i : Nat) : ∀ (l : List Todo), (∃ t ∈ l, t.id = i) →
    ∃ pre t0 post, l = pre ++ t0 :: post ∧ (∀ u ∈ pre, u.id ≠ i) ∧ t0.id = i := by
  intro l
  induction l with
  | nil =>
      rintro ⟨t, ht, _⟩
      cases ht
  | cons u l ih =>
      rintro ⟨t, ht, hti⟩
      by_cases hu : u.id = i
      · exact ⟨[], u, l, rfl, (by intro x hx; cases hx), hu⟩
      · rcases List.mem_cons.mp ht with rfl | hmem
        · exact absurd hti hu
        · obtain ⟨pre, t0, post, hl, hpre, ht0⟩ := ih ⟨t, hmem, hti⟩
          refine ⟨u :: pre, t0, post, ?_, ?_, ht0⟩
          · rw [List.cons_append, hl]
          · intro x hx
            rcases List.mem_cons.mp hx with rfl | hx
            · exact hu
            · exact hpre x hx

/-- The full behaviour of `toggle_done` when the parsed id is held by a
task: a 200 with the change-signal header and the flipped fragment, and a
state in which only that task's `done` flag changed. -/
theorem toggle_found (st : AppState) (s : String) (i : Nat) (pre post : List Todo) (t0 : Todo)
    (hp : parseU128 s = some i) (hl : st.todos = pre ++ t0 :: post)
    (hpre : ∀ u ∈ pre, u.id ≠ i) (ht : t0.id = i) :
    toggle_done (LockResult.ok st) (some s) =
      (HandlerOutcome.ok
        { status := 200, headers := [("HX-Trigger", "changedTodos")],
          body := Todo.render { t0 with done := !t0.done } },
       LockResult.ok
        { todos := pre ++ { t0 with done := !t0.done } :: post,
          last_index := st.last_index }) := by
  obtain ⟨hh, hf⟩ := first_match_spec i pre post t0 hpre ht
  simp only [toggle_done, hp, hl, hh, hf]

/-- The behaviour of `toggle_done` when no task holds the parsed id: a
bare 204 and an unchanged state. -/
theorem toggle_missing (st : AppState) (s : String) (i : Nat)
    (hp : parseU128 s = some i) (hm : ∀ t ∈ st.todos, t.id ≠ i) :
    toggle_done (LockResult.ok st) (some s) =
      (HandlerOutcome.ok { status := 204, headers := [], body := "" }, LockResult.ok st) := by
  have hf : st.todos.filter (fun t => t.id == i) = [] := by
    rw [List.filter_eq_nil_iff]
    intro t ht
    simp [hm t ht]
  simp only [toggle_done, hp, hf, List.head?_nil]

/-- Toggling the same existing id twice restores the entire store state. -/
theorem toggle_twice (st : AppState) (s : String) (i : Nat)
    (hp : parseU128 s = some i) (he : ∃ t ∈ st.todos, t.id = i) :
    (toggle_done ((toggle_done (LockResult.ok st) (some s)).2) (some s)).2
      = LockResult.ok st := by
  obtain ⟨pre, t0, post, hl, hpre, ht⟩ := exists_decomp i st.todos he
  rw [toggle_found st s i pre post t0 hp hl hpre ht]
  rw [toggle_found _ s i pre post { t0 with done := !t0.done } hp rfl hpre ht]
  simp only [Bool.not_not]
  rw [← hl]

/-- Running the whole `add` success path `ps.length` times appends exactly
the created todos and advances the counter by `ps.length`. -/
theorem runAdds_spec (ps : List String) : ∀ st : AppState,
    (runAdds st ps).todos = st.todos ++ createdTodos st.last_index ps ∧
    (runAdds st ps).last_index = st.last_index + ps.length := by
  induction ps with
  | nil => intro st; simp [runAdds, createdTodos]
  | cons p ps ih =>
      intro st
      obtain ⟨h1, h2⟩ := ih
        { todos := st.todos ++ [{ id := st.last_index, name := p, done := false }],
          last_index := st.last_index + 1 }
      constructor
      · simp only [runAdds, add]
        rw [h1]
        simp [createdTodos, List.append_assoc]
      · simp only [runAdds, add]
        rw [h2]
        simp
        omega

/-- The ids of the created todos are consecutive, starting at the counter
value. -/
theorem createdTodos_ids (ps : List String) : ∀ k,
    (createdTodos k ps).map Todo.id = (List.range ps.length).map (k + ·) := by
  induction ps with
  | nil => intro k; simp [createdTodos]
  | cons p ps ih =>
      intro k
      have step : (createdTodos k (p :: ps)).map Todo.id
          = k :: (createdTodos (k + 1) ps).map Todo.id := by
        simp [createdTodos]
      rw [step, ih (k + 1), List.length_cons, List.range_succ_eq_map, List.map_cons,
        List.map_map]
      simp only [List.cons.injEq]
      constructor
      · omega
      · apply List.map_congr_left
        intro a _
        simp only [Function.comp_apply]
        omega

/-- Claim C1: for every sequence of n successful create operations
(`POST /add`) from the initial store (empty list, next identifier 0), the
identifiers assigned to the created tasks are exactly `{0, 1, …, n-1}`
(as a list, in creation order), contain no duplicates, and are strictly
increasing in order of creation. -/
theorem C1_create_ids (prompts : List String) :
    (runAdds initialState prompts).todos.map Todo.id = List.range prompts.length ∧
    ((runAdds initialState prompts).todos.map Todo.id).Nodup ∧
    List.Pairwise (· < ·) ((runAdds initialState prompts).todos.map Todo.id) := by
  have h := (runAdds_spec prompts initialState).1
  have hm : (runAdds initialState prompts).todos.map Todo.id = List.range prompts.length := by
    rw [h]
    show (([] : List Todo) ++ createdTodos 0 prompts).map Todo.id = _
    rw [List.nil_append, createdTodos_ids prompts 0]
    simp
  exact ⟨hm, hm ▸ List.nodup_range _, hm ▸ List.pairwise_lt_range _⟩

/-- Claim C2, counterexample: the create handler (`POST /add`) answers a
failed lock acquisition with status 200, not with any 500-class response,
so the claim that every handler surfaces lock failure as a 500-class
response is false at this input. -/
theorem C2_add_lock_fail_cex :
    (add LockResult.poisoned "Buy milk").1.status = 200 ∧
    ¬ (500 ≤ (add LockResult.poisoned "Buy milk").1.status) := by decide

/-- Claim C2, amended: on a failed lock acquisition the list-page, toggle
and summary handlers return `ApiError` with the short label `mutex lock`,
which actix renders as a 500 response carrying that label in its body —
but the create handler (`POST /add`) instead responds 200 OK with an HTML
error body describing the lock failure. -/
theorem C2_lock_failure_responses :
    index LockResult.poisoned
      = (HandlerOutcome.err { name := "mutex lock" }, LockResult.poisoned) ∧
    (∀ seg, toggle_done LockResult.poisoned seg
      = (HandlerOutcome.err { name := "mutex lock" }, LockResult.poisoned)) ∧
    render_stats LockResult.poisoned
      = (HandlerOutcome.err { name := "mutex lock" }, LockResult.poisoned) ∧
    ApiError.toResponse { name := "mutex lock" }
      = { status := 500, headers := [], body := "my error: mutex lock" } ∧
    (∀ p, add LockResult.poisoned p
      = ({ status := 200, headers := [], body := lockErrBody }, LockResult.poisoned)) :=
  ⟨rfl, fun _ => rfl, rfl, rfl, fun _ => rfl⟩

/-- Claim C3, counterexample: a toggle request with the unparseable path
segment `abc` does not produce a 4xx response and does reach the store —
the handler panics on `unwrap` after acquiring the lock, leaving the
mutex poisoned. -/
theorem C3_unparseable_id_cex :
    (toggle_done (LockResult.ok initialState) (some "abc")).1 = HandlerOutcome.panicked ∧
    is4xx (toggle_done (LockResult.ok initialState) (some "abc")).1 = false ∧
    (toggle_done (LockResult.ok initialState) (some "abc")).2 = LockResult.poisoned := by
  decide

/-- Claim C3, amended: for every toggle request whose path segment is not
parseable as an unsigned integer, the handler — which has already
acquired the store's lock before parsing — panics via `unwrap` instead of
returning a 4xx response, and the panic poisons the store's mutex. -/
theorem C3_unparseable_id_panics (st : AppState) (s : String) (hp : parseU128 s = none) :
    toggle_done (LockResult.ok st) (some s)
      = (HandlerOutcome.panicked, LockResult.poisoned) := by
  simp only [toggle_done, hp]

/-- Witness for C3 at the concrete segment `abc`. -/
theorem C3_witness :
    parseU128 "abc" = none ∧
    toggle_done (LockResult.ok initialState) (some "abc")
      = (HandlerOutcome.panicked, LockResult.poisoned) :=
  ⟨by decide, C3_unparseable_id_panics initialState "abc" (by decide)⟩

/-- Claim C4, counterexample: after creating one task and toggling it,
`GET /statistic` returns `<span>Complited 1 of 1 todos</span>`; the body
contains neither the claimed text `Completed 1 of 1 todos` nor the word
`tasks`, so the claimed `Completed X of Y tasks` form is false. -/
theorem C4_summary_text_cex :
    statsOutcome = HandlerOutcome.ok
      { status := 200, headers := [], body := "<span>Complited 1 of 1 todos</span>" } ∧
    containsStr "<span>Complited 1 of 1 todos</span>" "Completed 1 of 1 todos" = false ∧
    containsStr "<span>Complited 1 of 1 todos</span>" "tasks" = false := by
  decide

/-- Claim C4, amended: for every store state the summary fragment returned
by `GET /statistic` is a 200 whose body has the form
`<span>Complited X of Y todos</span>` (with X the completed count and Y
the total count, the misspelling and the word `todos` as in the source);
in particular, after creating one task and toggling it once, the body is
`<span>Complited 1 of 1 todos</span>`. -/
theorem C4_summary_text :
    (∀ st, (render_stats (LockResult.ok st)).1 = HandlerOutcome.ok
      { status := 200, headers := [],
        body := "<span>Complited " ++ toString (countDone st.todos) ++ " of "
          ++ toString st.todos.length ++ " todos</span>" }) ∧
    statsOutcome = HandlerOutcome.ok
      { status := 200, headers := [], body := "<span>Complited 1 of 1 todos</span>" } := by
  constructor
  · intro st
    have hb : "<span>" ++ escape ("Complited " ++ toString (countDone st.todos) ++ " of "
          ++ toString st.todos.length ++ " todos") ++ "</span>"
        = "<span>Complited " ++ toString (countDone st.todos) ++ " of "
          ++ toString st.todos.length ++ " todos</span>" := by
      rw [stats_text_plain]
      apply eq_of_data
      simp only [data_append, List.append_assoc]
      rfl
    simp only [render_stats, hb]
  · decide

/-- Claim C5: for every store state and every identifier held by no task,
the toggle operation responds 204 with an empty body and no
`tasks changed` signal header, and leaves the store state — in
particular the task sequence — exactly unchanged. -/
theorem C5_toggle_unknown_id (st : AppState) (s : String) (i : Nat)
    (hp : parseU128 s = some i) (hm : ∀ t ∈ st.todos, t.id ≠ i) :
    toggle_done (LockResult.ok st) (some s) =
      (HandlerOutcome.ok { status := 204, headers := [], body := "" }, LockResult.ok st) :=
  toggle_missing st s i hp hm

/-- Witness for C5: toggling id 999 on a two-task store. -/
theorem C5_witness :
    parseU128 "999" = some 999 ∧
    (∀ t ∈ demoState.todos, t.id ≠ 999) ∧
    toggle_done (LockResult.ok demoState) (some "999")
      = (HandlerOutcome.ok { status := 204, headers := [], body := "" },
         LockResult.ok demoState) :=
  ⟨by decide, by decide, C5_toggle_unknown_id demoState "999" 999 (by decide) (by decide)⟩

/-- Claim C6: for every store state containing a task with the given id,
toggling that id twice in succession returns the store — in particular
that task's `done` flag — to its original value. -/
theorem C6_toggle_self_inverse (st : AppState) (s : String) (i : Nat)
    (hp : parseU128 s = some i) (he : ∃ t ∈ st.todos, t.id = i) :
    (toggle_done ((toggle_done (LockResult.ok st) (some s)).2) (some s)).2
      = LockResult.ok st :=
  toggle_twice st s i hp he

/-- Witness for C6: toggling id 1 twice on a two-task store. -/
theorem C6_witness :
    parseU128 "1" = some 1 ∧
    (∃ t ∈ demoState.todos, t.id = 1) ∧
    (toggle_done ((toggle_done (LockResult.ok demoState) (some "1")).2) (some "1")).2
      = LockResult.ok demoState :=
  ⟨by decide, by decide, C6_toggle_self_inverse demoState "1" 1 (by decide) (by decide)⟩

/-- Claim C7: for every task, the rendered fragment is exactly the
serialization of a list item whose element identifier is `todo-{id}`
(derived solely from the id), whose label `div` carries the
`line-through` class exactly when the task is done, and whose checkbox
`input` has the `checked` attribute exactly when the task is done (see
`todoNode` for the structured form). -/
theorem C7_render_structure (t : Todo) : Todo.render t = Node.render (todoNode t) :=
  render_eq_node t

/-- Claim C8: for every store state and every id held by some task, the
toggle operation changes only the `done` flag of the first task with that
id — the surrounding tasks, their order, the flipped task's id and text,
the sequence length, and the next-identifier counter all survive
unchanged. -/
theorem C8_toggle_frame (st : AppState) (s : String) (i : Nat)
    (hp : parseU128 s = some i) (he : ∃ t ∈ st.todos, t.id = i) :
    ∃ pre t0 post,
      st.todos = pre ++ t0 :: post ∧ (∀ u ∈ pre, u.id ≠ i) ∧ t0.id = i ∧
      (toggle_done (LockResult.ok st) (some s)).2 = LockResult.ok
        { todos := pre ++ { t0 with done := !t0.done } :: post,
          last_index := st.last_index } := by
  obtain ⟨pre, t0, post, hl, hpre, ht⟩ := exists_decomp i st.todos he
  exact ⟨pre, t0, post, hl, hpre, ht,
    by rw [toggle_found st s i pre post t0 hp hl hpre ht]⟩

/-- Witness for C8: toggling id 1 on a two-task store. -/
theorem C8_witness :
    parseU128 "1" = some 1 ∧ (∃ t ∈ demoState.todos, t.id = 1) ∧
    (∃ pre t0 post,
      demoState.todos = pre ++ t0 :: post ∧ (∀ u ∈ pre, u.id ≠ 1) ∧ t0.id = 1 ∧
      (toggle_done (LockResult.ok demoState) (some "1")).2 = LockResult.ok
        { todos := pre ++ { t0 with done := !t0.done } :: post,
          last_index := demoState.last_index }) :=
  ⟨by decide, by decide, C8_toggle_frame demoState "1" 1 (by decide) (by decide)⟩

/-- Claim C9, counterexample: in every handler's event trace the fragment
or page rendering occurs before the lock release, and no release occurs
before the rendering — the claim that the lock is released before any
rendering is false for all four handlers. -/
theorem C9_render_under_lock_cex :
    Ev.render ∈ before indexTrace Ev.lockRelease ∧
    Ev.lockRelease ∉ before indexTrace Ev.render ∧
    Ev.render ∈ before addTrace Ev.lockRelease ∧
    Ev.lockRelease ∉ before addTrace Ev.render ∧
    Ev.render ∈ before toggleTrace Ev.lockRelease ∧
    Ev.lockRelease ∉ before toggleTrace Ev.render ∧
    Ev.render ∈ before statsTrace Ev.lockRelease ∧
    Ev.lockRelease ∉ before statsTrace Ev.render := by
  decide

/-- Claim C9, amended: in every request handler the lock is acquired
before the state is touched and is released before the response is
written, but rendering happens while the lock is still held — the
`MutexGuard` lives to the end of the handler's scope, so the lock is not
released before fragment or page rendering. -/
theorem C9_lock_scope :
    lockHeldThroughRender indexTrace ∧ lockHeldThroughRender addTrace ∧
    lockHeldThroughRender toggleTrace ∧ lockHeldThroughRender statsTrace := by
  refine ⟨?_, ?_, ?_, ?_⟩ <;> exact ⟨by decide, by decide, by decide, by decide⟩

/-- Claim C10: for every task, the rendered fragment contains the task
text only through the escaper — it splits as a text-independent prefix,
the escaped text, and a text-independent suffix — and the escaped text
never contains `<`, `>` or `"`, so client-supplied text cannot introduce
new markup elements or attributes into the fragment. -/
theorem C10_escaped_interpolation (t : Todo) :
    Todo.render t = renderPre t.id t.done ++ escape t.name ++ renderPost t.id t.done ∧
    ∀ c ∈ (escape t.name).data, c ∉ ['<', '>', '"'] :=
  ⟨render_decomp t, escapeList_noTag t.name.data⟩

end TodoApp
